import Mathlib

/-!
Shallow embedding of `src/index.ts` of the ClearNightSkyMCP repository.

Conventions used throughout:
* JavaScript numbers are modelled as exact rationals (`ℚ`); all numeric data
  reaching the functions under study comes from JSON, whose literals are
  decimal rationals, and every arithmetic step exercised by the claims stays
  well inside the range where double arithmetic is exact.
* JavaScript exceptions are modelled with `Except String`; a thrown error
  carries its message string.
* `undefined`/`null` are modelled with `Option`.
* ECMAScript `Date` values are modelled as `Option Int` (milliseconds since
  the epoch; `none` models an Invalid Date).  The runtime services the source
  delegates to (`new Date(string)`, `Date.prototype.toISOString`) are
  implemented here for the ISO-8601 subset the upstream data uses; strings
  outside that subset parse to `none` (Invalid Date), and `toISOString` on an
  Invalid Date throws `RangeError: Invalid time value`, as in ECMA-262.
-/

namespace ClearNightSky

/-! ### Generic JavaScript-style string helpers -/

/-- `Array.prototype.join(sep)`: empty array gives `""`. -/
def jsJoin (sep : String) : List String → String
  | [] => ""
  | x :: xs => xs.foldl (fun acc r => acc ++ sep ++ r) x

/-- Left-pad a string with zeros up to width `k`. -/
def padLeftZeros (s : String) (k : Nat) : String :=
  if k ≤ s.length then s else String.mk (List.replicate (k - s.length) '0') ++ s

def pad2 (n : Nat) : String := padLeftZeros (toString n) 2

/-- Helper for `String.prototype.split("/")`: split a character list at every
slash, keeping empty fields, as JavaScript does. -/
def splitSlashAux : List Char → List Char → List (List Char)
  | [], acc => [acc.reverse]
  | c :: cs, acc =>
    if c = '/' then acc.reverse :: splitSlashAux cs [] else splitSlashAux cs (c :: acc)

/-- `String.prototype.split("/")`. -/
def jsSplitSlash (s : String) : List String :=
  (splitSlashAux s.data []).map String.mk

/-- Numeric value of a list of decimal digit characters, leftmost first. -/
def digitsVal (l : List Char) : Nat :=
  l.foldl (fun n c => n * 10 + (c.toNat - 48)) 0

/-- Remove every factor `p` from `n` (fuelled; fuel `n` suffices). -/
def factorOutAux : Nat → Nat → Nat → Nat × Nat
  | 0, n, _ => (0, n)
  | fuel + 1, n, p =>
    if 2 ≤ p ∧ p ∣ n ∧ n ≠ 0 then
      let (e, r) := factorOutAux fuel (n / p) p
      (e + 1, r)
    else (0, n)

def factorOut (n p : Nat) : Nat × Nat := factorOutAux n n p

/-- Rendering of a JavaScript number (`${x}` / `String(x)`).  Doubles are
dyadic rationals, for which the shortest-round-trip decimal rendering of a
value that is exactly a short decimal fraction is that decimal fraction; the
embedding renders integral values without a point and terminating fractions
with their minimal decimal digits.  (Rationals with a repeating expansion are
unreachable from JSON-sourced doubles; they fall back to `num/den` text.) -/
def jsNumToString (q : ℚ) : String :=
  if q.den = 1 then toString q.num
  else
    let (a, r2) := factorOut q.den 2
    let (b, r) := factorOut r2 5
    if r = 1 then
      let k := max a b
      let scale : Nat := 10 ^ k / q.den
      let n : Nat := q.num.natAbs * scale
      let ip := n / 10 ^ k
      let fp := n % 10 ^ k
      (if q.num < 0 then "-" else "") ++ toString ip ++ "." ++ padLeftZeros (toString fp) k
    else toString q

/-- `Number.prototype.toFixed(digits)`: round to `digits` decimal places,
ties to the larger value (ECMA-262 picks the larger candidate `n`). -/
def ratToFixed (q : ℚ) (digits : Nat) : String :=
  let n : Int := ⌊q * (10 ^ digits : ℚ) + 1 / 2⌋
  if digits = 0 then toString n
  else
    let a := n.natAbs
    let ip := a / 10 ^ digits
    let fp := a % 10 ^ digits
    (if n < 0 then "-" else "") ++ toString ip ++ "." ++ padLeftZeros (toString fp) digits

/-- Number of iterations of `for (let i = 0; i < bound; i += 1)` for a
(possibly fractional) numeric bound: the count of naturals below `bound`. -/
def jsLoopCount (bound : ℚ) : Nat := ⌈bound⌉₊

/-! ### ECMAScript `Date` model -/

/-- Hinnant `days_from_civil`: days since 1970-01-01 of a proleptic Gregorian
calendar date.  Lean's `Int` division by a positive divisor rounds toward
negative infinity, which is exactly the era computation the algorithm wants;
every other division below has non-negative operands. -/
def daysFromCivil (y : Int) (m d : Nat) : Int :=
  let yx : Int := if (m : Int) ≤ 2 then y - 1 else y
  let era : Int := yx / 400
  let yoe : Int := yx - era * 400
  let mp : Int := ((m : Int) + 9) % 12
  let doy : Int := (153 * mp + 2) / 5 + (d : Int) - 1
  let doe : Int := yoe * 365 + yoe / 4 - yoe / 100 + doy
  era * 146097 + doe - 719468

/-- Hinnant `civil_from_days`: inverse of `daysFromCivil`. -/
def civilFromDays (z0 : Int) : Int × Nat × Nat :=
  let z : Int := z0 + 719468
  let era : Int := z / 146097
  let doe : Int := z - era * 146097
  let yoe : Int := (doe - doe / 1460 + doe / 36524 - doe / 146096) / 365
  let y : Int := yoe + era * 400
  let doy : Int := doe - (365 * yoe + yoe / 4 - yoe / 100)
  let mp : Int := (5 * doy + 2) / 153
  let d : Int := doy - (153 * mp + 2) / 5 + 1
  let m : Int := if mp < 10 then mp + 3 else mp - 9
  (if m ≤ 2 then y + 1 else y, m.toNat, d.toNat)

def isLeap (y : Int) : Bool := (y % 4 = 0 ∧ y % 100 ≠ 0) ∨ y % 400 = 0

def daysInMonth (y : Int) (m : Nat) : Nat :=
  if m = 2 then (if isLeap y then 29 else 28)
  else if m = 4 ∨ m = 6 ∨ m = 9 ∨ m = 11 then 30
  else 31

/-- Parse exactly `n` decimal digits, accumulating their value. -/
def parseFixedNatAux : Nat → Nat → List Char → Option (Nat × List Char)
  | 0, acc, l => some (acc, l)
  | n + 1, acc, c :: cs =>
    if c.isDigit then parseFixedNatAux n (acc * 10 + (c.toNat - 48)) cs else none
  | _ + 1, _, [] => none

def parseChar (c : Char) : List Char → Option (List Char)
  | x :: xs => if x = c then some xs else none
  | [] => none

def dateMs (y : Int) (mo d hh mi ss ms : Nat) : Int :=
  daysFromCivil y mo d * 86400000 + (hh : Int) * 3600000 + (mi : Int) * 60000
    + (ss : Int) * 1000 + (ms : Int)

/-- Parse a `±HH:MM` timezone offset tail, in minutes. -/
def parseOffset (sign : Int) (l : List Char) : Option (Int × List Char) := do
  let (hh, l) ← parseFixedNatAux 2 0 l
  let l ← parseChar ':' l
  let (mi, l) ← parseFixedNatAux 2 0 l
  if 23 < hh ∨ 59 < mi then none
  else some (sign * ((hh : Int) * 60 + (mi : Int)), l)

/-- `new Date(string)` for the ISO-8601 subset used by the upstream data:
`YYYY-MM-DD`, optionally followed by `THH:MM:SS`, an optional `.mmm`
fraction and an optional `Z` or `±HH:MM` offset (a missing offset is read as
UTC, modelling a UTC host).  Anything else — in particular an arbitrary
malformed token — yields `none`, an Invalid Date. -/
def parseJsDate (s : String) : Option Int := do
  let l := s.data
  let (y, l) ← parseFixedNatAux 4 0 l
  let l ← parseChar '-' l
  let (mo, l) ← parseFixedNatAux 2 0 l
  let l ← parseChar '-' l
  let (d, l) ← parseFixedNatAux 2 0 l
  if mo < 1 ∨ 12 < mo then none
  else if d < 1 ∨ daysInMonth (y : Int) mo < d then none
  else
    match l with
    | [] => some (dateMs (y : Int) mo d 0 0 0 0)
    | 'T' :: l => do
      let (hh, l) ← parseFixedNatAux 2 0 l
      let l ← parseChar ':' l
      let (mi, l) ← parseFixedNatAux 2 0 l
      let l ← parseChar ':' l
      let (ss, l) ← parseFixedNatAux 2 0 l
      if 23 < hh ∨ 59 < mi ∨ 59 < ss then none
      else do
        let (ms, l) ← (match l with
          | '.' :: l2 => parseFixedNatAux 3 0 l2
          | _ => some (0, l))
        let (off, l) ← (match l with
          | 'Z' :: l2 => some ((0 : Int), l2)
          | '+' :: l2 => parseOffset 1 l2
          | '-' :: l2 => parseOffset (-1) l2
          | [] => some ((0 : Int), [])
          | _ => none)
        match l with
        | [] => some (dateMs (y : Int) mo d hh mi ss ms - off * 60000)
        | _ => none
    | _ => none

/-- `Date.prototype.toISOString` on a valid time value. -/
def isoStringOfMs (t : Int) : String :=
  let days := t.fdiv 86400000
  let tod := (t.fmod 86400000).toNat
  let ymd := civilFromDays days
  let y := ymd.1
  let mo := ymd.2.1
  let d := ymd.2.2
  let hh := tod / 3600000
  let mi := tod % 3600000 / 60000
  let ss := tod % 60000 / 1000
  let ms := tod % 1000
  let yearStr :=
    if 0 ≤ y ∧ y ≤ 9999 then padLeftZeros (toString y.toNat) 4
    else (if y < 0 then "-" else "+") ++ padLeftZeros (toString y.natAbs) 6
  yearStr ++ "-" ++ pad2 mo ++ "-" ++ pad2 d ++ "T" ++ pad2 hh ++ ":" ++ pad2 mi
    ++ ":" ++ pad2 ss ++ "." ++ padLeftZeros (toString ms) 3 ++ "Z"

/-- `Date.prototype.toISOString`: throws `RangeError` (message
`Invalid time value`) on an Invalid Date. -/
def jsToISOString (d : Option Int) : Except String String :=
  match d with
  | none => Except.error "Invalid time value"
  | some t => Except.ok (isoStringOfMs t)

/-! ### Duration / interval parsing (`parseISODurationToMs`, `parseValidTime`) -/

/-- One optional group `(\d+)<marker>` of the duration regular expression:
consume one-or-more digits followed by `marker`, or consume nothing. -/
def matchGroupNum (marker : Char) (l : List Char) : Option Nat × List Char :=
  let ds := l.takeWhile (·.isDigit)
  let rest := l.dropWhile (·.isDigit)
  match ds, rest with
  | [], _ => (none, l)
  | _, r :: rs => if r = marker then (some (digitsVal ds), rs) else (none, l)
  | _, [] => (none, l)

/-- The match of `/^P(?:(\d+)D)?(?:T(?:(\d+)H)?(?:(\d+)M)?(?:(\d+)S)?)?$/`
against `s`: `some (days, hours, minutes, seconds)` with absent groups read
as 0 (the source applies `Number(match[i] ?? 0)`), `none` when the string is
not matched by the expression. -/
def matchISODuration (s : String) : Option (Nat × Nat × Nat × Nat) :=
  match s.data with
  | 'P' :: rest =>
    let dR := matchGroupNum 'D' rest
    let afterD := dR.2
    let tR : Option Nat × Option Nat × Option Nat × List Char :=
      match afterD with
      | 'T' :: r2 =>
        let hR := matchGroupNum 'H' r2
        let mR := matchGroupNum 'M' hR.2
        let sR := matchGroupNum 'S' mR.2
        (hR.1, mR.1, sR.1, sR.2)
      | _ => (none, none, none, afterD)
    match tR.2.2.2 with
    | [] => some (dR.1.getD 0, tR.1.getD 0, tR.2.1.getD 0, tR.2.2.1.getD 0)
    | _ => none
  | _ => none

def parseISODurationToMs (duration : String) : Nat :=
  match matchISODuration duration with
  | none => 0
  | some (days, hours, minutes, seconds) =>
    (((days * 24 + hours) * 60 + minutes) * 60 + seconds) * 1000

/-- The `durationMs` computed inside `parseValidTime`:
`duration ? parseISODurationToMs(duration) : 0` where `duration` is the
second field of `validTime.split("/")` (an absent or empty field is falsy). -/
def durationMsOf (validTime : String) : Nat :=
  match (jsSplitSlash validTime)[1]? with
  | some d => if d = "" then 0 else parseISODurationToMs d
  | none => 0

/-- `parseValidTime`: start instant and end instant (start plus the decoded
duration, with a 1-hour fallback when the duration is absent, unmatched or
zero).  An Invalid Date start propagates to the end instant, as
`new Date(NaN + ms)` stays invalid. -/
def parseValidTime (validTime : String) : Option Int × Option Int :=
  let parts := jsSplitSlash validTime
  let start := parseJsDate ((parts[0]?).getD "")
  let durationMs := durationMsOf validTime
  let fallbackMs : Nat := 60 * 60 * 1000
  let totalMs := if 0 < durationMs then durationMs else fallbackMs
  (start, start.map (· + (totalMs : Int)))

/-- `formatTimeRange`: renders both interval ends with `toISOString`, which
throws `RangeError` on an Invalid Date. -/
def formatTimeRange (validTime : String) : Except String String := do
  let se := parseValidTime validTime
  let startLabel ← jsToISOString se.1
  let endLabel ← jsToISOString se.2
  Except.ok (startLabel ++ " → " ++ endLabel)

/-! ### Visibility formatting -/

/-- `formatVisibility(value, uom)` from the source. -/
def formatVisibility (value : Option ℚ) (uom : Option String) : String :=
  match value with
  | none => "unknown"
  | some v =>
    if uom = some "wmoUnit:m" then
      let miles : ℚ := v / (1609344 / 1000 : ℚ)
      if 10 ≤ miles then ratToFixed miles 0 ++ " mi"
      else if 1 ≤ miles then ratToFixed miles 1 ++ " mi"
      else ratToFixed (v / 1000) 1 ++ " km"
    else jsNumToString v

/-! ### Argument validation (zod model)

The source validates `Record<string, unknown>` argument maps with
`z.object` schemas built from `z.coerce.number().min(lo).max(hi)` fields
(optionally `.default(d)`).  The embedding models an argument map restricted
to JSON-numeric-or-absent fields (`z.coerce` is the identity on numbers);
a missing field without a default fails with zod's
`Expected number, received nan` issue (`Number(undefined)` is `NaN`), and an
out-of-range number fails with zod's `too_small` / `too_big` message.  zod
collects the issues of all fields of an object, in schema key order. -/

structure RawArgs where
  latitude : Option ℚ := none
  longitude : Option ℚ := none
  periods : Option ℚ := none
  hours : Option ℚ := none
  horizonHours : Option ℚ := none
deriving Repr, DecidableEq

structure ZodIssue where
  path : List String
  message : String
deriving Repr, DecidableEq

/-- Validation of one `z.coerce.number().min(lo).max(hi)` field. -/
def numberFieldCheck (path : String) (lo hi : Int) (dflt : Option ℚ)
    (v : Option ℚ) : Except ZodIssue ℚ :=
  match v with
  | none =>
    match dflt with
    | some d => Except.ok d
    | none => Except.error ⟨[path], "Expected number, received nan"⟩
  | some q =>
    if q < (lo : ℚ) then
      Except.error ⟨[path], s!"Number must be greater than or equal to {lo}"⟩
    else if (hi : ℚ) < q then
      Except.error ⟨[path], s!"Number must be less than or equal to {hi}"⟩
    else Except.ok q

def issuesOf (r : Except ZodIssue ℚ) : List ZodIssue :=
  match r with
  | Except.ok _ => []
  | Except.error i => [i]

structure CoordinateArgs where
  latitude : ℚ
  longitude : ℚ
deriving Repr, DecidableEq

structure DailyArgs where
  latitude : ℚ
  longitude : ℚ
  periods : ℚ
deriving Repr, DecidableEq

structure HourlyArgs where
  latitude : ℚ
  longitude : ℚ
  hours : ℚ
deriving Repr, DecidableEq

structure ClearSkyArgs where
  latitude : ℚ
  longitude : ℚ
  horizonHours : ℚ
deriving Repr, DecidableEq

def coordinateArgumentParser (args : RawArgs) : Except (List ZodIssue) CoordinateArgs :=
  match numberFieldCheck "latitude" (-90) 90 none args.latitude,
        numberFieldCheck "longitude" (-180) 180 none args.longitude with
  | Except.ok la, Except.ok lo => Except.ok ⟨la, lo⟩
  | rla, rlo => Except.error (issuesOf rla ++ issuesOf rlo)

def dailyForecastArgumentParser (args : RawArgs) : Except (List ZodIssue) DailyArgs :=
  match numberFieldCheck "latitude" (-90) 90 none args.latitude,
        numberFieldCheck "longitude" (-180) 180 none args.longitude,
        numberFieldCheck "periods" 1 14 (some 6) args.periods with
  | Except.ok la, Except.ok lo, Except.ok p => Except.ok ⟨la, lo, p⟩
  | rla, rlo, rp => Except.error (issuesOf rla ++ issuesOf rlo ++ issuesOf rp)

def hourlyForecastArgumentParser (args : RawArgs) : Except (List ZodIssue) HourlyArgs :=
  match numberFieldCheck "latitude" (-90) 90 none args.latitude,
        numberFieldCheck "longitude" (-180) 180 none args.longitude,
        numberFieldCheck "hours" 1 24 (some 6) args.hours with
  | Except.ok la, Except.ok lo, Except.ok h => Except.ok ⟨la, lo, h⟩
  | rla, rlo, rh => Except.error (issuesOf rla ++ issuesOf rlo ++ issuesOf rh)

def clearSkyArgumentParser (args : RawArgs) : Except (List ZodIssue) ClearSkyArgs :=
  match numberFieldCheck "latitude" (-90) 90 none args.latitude,
        numberFieldCheck "longitude" (-180) 180 none args.longitude,
        numberFieldCheck "horizonHours" 3 24 (some 12) args.horizonHours with
  | Except.ok la, Except.ok lo, Except.ok h => Except.ok ⟨la, lo, h⟩
  | rla, rlo, rh => Except.error (issuesOf rla ++ issuesOf rlo ++ issuesOf rh)

/-- `formatZodIssues`. -/
def formatZodIssues (issues : List ZodIssue) : String :=
  jsJoin "; " (issues.map fun issue =>
    (if issue.path.isEmpty then "arguments" else jsJoin "." issue.path)
      ++ ": " ++ issue.message)

/-- `parseArguments`: `safeParse` failure throws `Error(formatZodIssues(...))`. -/
def parseArguments {α : Type} (r : Except (List ZodIssue) α) : Except String α :=
  match r with
  | Except.ok a => Except.ok a
  | Except.error issues => Except.error (formatZodIssues issues)

/-! ### Upstream data model and the per-invocation world -/

structure TimedNumberValue where
  validTime : String
  value : Option ℚ
deriving Repr, DecidableEq

structure GridpointSeries where
  uom : Option String := none
  values : List TimedNumberValue
deriving Repr, DecidableEq

structure GridpointProperties where
  skyCover : Option GridpointSeries := none
  probabilityOfPrecipitation : Option GridpointSeries := none
  visibility : Option GridpointSeries := none
deriving Repr, DecidableEq

structure GridpointResponse where
  properties : GridpointProperties
deriving Repr, DecidableEq

structure ForecastPeriod where
  name : Option String := none
  startTime : Option String := none
  temperature : Option ℚ := none
  temperatureUnit : Option String := none
  windSpeed : Option String := none
  windDirection : Option String := none
  shortForecast : Option String := none
  detailedForecast : Option String := none
deriving Repr, DecidableEq

structure ForecastProperties where
  periods : Option (List ForecastPeriod) := none
deriving Repr, DecidableEq

structure ForecastResponse where
  properties : Option ForecastProperties := none
deriving Repr, DecidableEq

structure DistanceValue where
  value : Option ℚ := none
  unitCode : Option String := none
deriving Repr, DecidableEq

structure RelativeLocationProperties where
  city : Option String := none
  state : Option String := none
  distance : Option DistanceValue := none
deriving Repr, DecidableEq

structure RelativeLocation where
  properties : Option RelativeLocationProperties := none
deriving Repr, DecidableEq

structure PointsProperties where
  cwa : Option String := none
  gridId : Option String := none
  gridX : Option ℚ := none
  gridY : Option ℚ := none
  forecast : Option String := none
  forecastHourly : Option String := none
  forecastGridData : Option String := none
  forecastZone : Option String := none
  county : Option String := none
  timeZone : Option String := none
  relativeLocation : Option RelativeLocation := none
deriving Repr, DecidableEq

structure PointsResponse where
  properties : PointsProperties
deriving Repr, DecidableEq

/-- Outcome of the (at most two) network fetches of one invocation: either
the parsed JSON document or the message of the error thrown by `fetchJson`
(non-ok HTTP status, network failure, malformed body). -/
structure World where
  points : Except String PointsResponse
  daily : Except String ForecastResponse
  hourly : Except String ForecastResponse
  grid : Except String GridpointResponse

/-! ### Tool-call results -/

structure TextContent where
  type : String
  text : String
deriving Repr, DecidableEq

structure CallToolResult where
  content : List TextContent
  isError : Bool
deriving Repr, DecidableEq

def toTextResult (text : String) (isError : Bool) : CallToolResult :=
  ⟨[⟨"text", text⟩], isError⟩

instance {ε α : Type} [DecidableEq ε] [DecidableEq α] : DecidableEq (Except ε α) := fun x y =>
  match x, y with
  | Except.ok a, Except.ok b =>
    if h : a = b then Decidable.isTrue (by rw [h])
    else Decidable.isFalse (by intro hc; cases hc; exact h rfl)
  | Except.error a, Except.error b =>
    if h : a = b then Decidable.isTrue (by rw [h])
    else Decidable.isFalse (by intro hc; cases hc; exact h rfl)
  | Except.ok _, Except.error _ => Decidable.isFalse (by intro hc; cases hc)
  | Except.error _, Except.ok _ => Decidable.isFalse (by intro hc; cases hc)

/-! ### Presentation layer -/

/-- `formatCoordinateSummary`. -/
def formatCoordinateSummary (points : PointsResponse) (latitude longitude : ℚ) : String :=
  let props := points.properties
  let location := props.relativeLocation.bind (·.properties)
  let city := location.bind (·.city)
  let state := location.bind (·.state)
  let gridId := props.gridId.getD "?"
  let gridXs := match props.gridX with | some x => jsNumToString x | none => "?"
  let gridYs := match props.gridY with | some y => jsNumToString y | none => "?"
  let tz := props.timeZone.getD "Unknown"
  let distance := (location.bind (·.distance)).bind (·.value)
  let distanceUnit := (location.bind (·.distance)).bind (·.unitCode)
  let distanceText : Option String :=
    match distance, distanceUnit with
    | some dv, some u =>
      if u = "wmoUnit:m" then some (ratToFixed (dv / 1000) 1 ++ " km from point") else none
    | _, _ => none
  let line1 := ("Resolved " ++ ratToFixed latitude 4 ++ ", " ++ ratToFixed longitude 4
      ++ " to grid " ++ gridId ++ " (" ++ gridXs ++ ", " ++ gridYs ++ ") in "
      ++ props.cwa.getD "").trim
  let lines := [line1]
  let lines := lines ++
    (if city.getD "" ≠ "" ∨ state.getD "" ≠ "" then
      ["Nearest location: "
        ++ jsJoin ", " (([city, state].filterMap id).filter (· ≠ ""))]
     else [])
  let lines := lines ++ (match distanceText with | some t => [t] | none => [])
  let lines := lines ++ (match props.county with | some c => ["County: " ++ c] | none => [])
  let lines := lines ++
    (match props.forecastZone with | some z => ["Forecast zone: " ++ z] | none => [])
  let lines := lines ++ ["Time zone: " ++ tz]
  let lines := lines ++
    (match props.forecast with | some f => ["7-day forecast: " ++ f] | none => [])
  let lines := lines ++
    (match props.forecastHourly with | some f => ["Hourly forecast: " ++ f] | none => [])
  let lines := lines ++
    (match props.forecastGridData with | some f => ["Grid data: " ++ f] | none => [])
  jsJoin "\n" lines

/-- One item of `formatForecast`; `new Date(period.startTime).toISOString()`
can throw on a malformed start time. -/
def formatForecastItem (period : ForecastPeriod) : Except String String := do
  let name := period.name.getD "Unknown"
  let tempUnit := period.temperatureUnit.getD ""
  let temperature := match period.temperature with
    | some t => jsNumToString t ++ "°" ++ tempUnit
    | none => "Temperature unavailable"
  let windJoined :=
    jsJoin " " (([period.windSpeed, period.windDirection].filterMap id).filter (· ≠ ""))
  let wind := if windJoined = "" then "Wind data unavailable" else windJoined
  let summary :=
    (period.detailedForecast.getD (period.shortForecast.getD "No forecast description provided."))
  let start : Option String ← (match period.startTime with
    | some st =>
      if st = "" then Except.ok none
      else do
        let label ← jsToISOString (parseJsDate st)
        Except.ok (some label)
    | none => Except.ok none)
  Except.ok (jsJoin "\n" [
    name ++ (match start with | some s => " (" ++ s ++ ")" | none => ""),
    "Temperature: " ++ temperature,
    "Wind: " ++ wind,
    "Forecast: " ++ summary])

/-- `periods.slice(0, limit)` for a validated positive numeric `limit`
(`ToIntegerOrInfinity` truncates a fractional count). -/
def jsSliceCount (limit : ℚ) : Nat := (⌊limit⌋ : Int).toNat

/-- `formatForecast`. -/
def formatForecast (periods : List ForecastPeriod) (limit : ℚ) (heading : String) :
    Except String String := do
  let trimmed := periods.take (jsSliceCount limit)
  if trimmed.isEmpty then Except.ok (heading ++ ": No forecast periods available.")
  else do
    let items ← trimmed.mapM formatForecastItem
    Except.ok (heading ++ ":\n\n" ++ jsJoin "\n\n---\n\n" items)

/-! ### The clear-sky window loop -/

/-- Sky-cover value used in scoring: the sample's numeric value, or the
sentinel 100 when the index is out of range or the sample's value is null. -/
def skyValueAt (sky : List TimedNumberValue) (i : Nat) : ℚ :=
  ((sky[i]?).bind (·.value)).getD 100

/-- Precipitation value used in scoring, with the same sentinel. -/
def precipValueAt (precip : List TimedNumberValue) (i : Nat) : ℚ :=
  ((precip[i]?).bind (·.value)).getD 100

/-- `score = skyValue + precipValue * 0.5` at one index. -/
def scoreAt (sky precip : List TimedNumberValue) (i : Nat) : ℚ :=
  skyValueAt sky i + precipValueAt precip i * (1 / 2)

/-- `if (score < bestScore) { bestScore = score; bestIndex = i; }`, with the
initial `bestIndex = -1` / `bestScore = +Infinity` state modelled as `none`
(every finite score is below `+Infinity`). -/
def bestUpdate (best : Option (Nat × ℚ)) (i : Nat) (score : ℚ) : Option (Nat × ℚ) :=
  match best with
  | none => some (i, score)
  | some (bi, bs) => if score < bs then some (i, score) else some (bi, bs)

/-- The body of the `for` loop of `handleClearSkyWindow`, iterated over the
remaining indices: updates the running best score and appends the rendered
row; `formatTimeRange(sky.validTime)` can throw, aborting the iteration
(and an out-of-range sky index would throw a `TypeError`, which the loop
bound makes unreachable). -/
def clearSkyLoopAux (sky precip vis : List TimedNumberValue) (visUnit : Option String) :
    List Nat → Option (Nat × ℚ) → List String →
    Except String (List String × Option (Nat × ℚ))
  | [], best, rows => Except.ok (rows.reverse, best)
  | i :: is, best, rows =>
    match sky[i]? with
    | none => Except.error "Cannot read properties of undefined"
    | some sk =>
      let score := scoreAt sky precip i
      let best := bestUpdate best i score
      match formatTimeRange sk.validTime with
      | Except.error e => Except.error e
      | Except.ok timeLabel =>
        let row := jsJoin " | " [
          timeLabel,
          "Sky cover: " ++ (match sk.value with
            | some v => jsNumToString v
            | none => "?") ++ "%",
          "Precip chance: " ++ (match (precip[i]?).bind (·.value) with
            | some v => jsNumToString v
            | none => "?") ++ "%",
          "Visibility: " ++ formatVisibility ((vis[i]?).bind (·.value)) visUnit]
        clearSkyLoopAux sky precip vis visUnit is best (row :: rows)

/-- The whole `for (let i = 0; i < windowLength; i += 1)` loop. -/
def runClearSkyLoop (sky precip vis : List TimedNumberValue) (visUnit : Option String)
    (count : Nat) : Except String (List String × Option (Nat × ℚ)) :=
  clearSkyLoopAux sky precip vis visUnit (List.range count) none []

/-- Projection of the loop outcome onto the final best index/score
(`none` when the loop threw). -/
def clearSkyBestOf (sky precip vis : List TimedNumberValue) (visUnit : Option String)
    (count : Nat) : Option (Option (Nat × ℚ)) :=
  match runClearSkyLoop sky precip vis visUnit count with
  | Except.ok (_, best) => some best
  | Except.error _ => none

/-! ### The four tool executors and the dispatcher -/

def handleResolvePointMetadataCore (args : RawArgs) (w : World) : Except String String :=
  match parseArguments (coordinateArgumentParser args) with
  | Except.error e => Except.error e
  | Except.ok parsed =>
    match w.points with
    | Except.error e => Except.error e
    | Except.ok points =>
      Except.ok (formatCoordinateSummary points parsed.latitude parsed.longitude)

def handleResolvePointMetadata (args : RawArgs) (w : World) : CallToolResult :=
  match handleResolvePointMetadataCore args w with
  | Except.ok t => toTextResult t false
  | Except.error m => toTextResult ("Unable to resolve metadata. " ++ m) true

def handleDailyForecastCore (args : RawArgs) (w : World) : Except String String :=
  match parseArguments (dailyForecastArgumentParser args) with
  | Except.error e => Except.error e
  | Except.ok parsed =>
    match w.points with
    | Except.error e => Except.error e
    | Except.ok points =>
      match points.properties.forecast with
      | none => Except.error "Forecast URL not available for this coordinate (outside NWS coverage)."
      | some _ =>
        match w.daily with
        | Except.error e => Except.error e
        | Except.ok forecast =>
          let periodsData := (forecast.properties.bind (·.periods)).getD []
          formatForecast periodsData parsed.periods
            ("NWS forecast for " ++ ratToFixed parsed.latitude 4 ++ ", "
              ++ ratToFixed parsed.longitude 4)

def handleDailyForecast (args : RawArgs) (w : World) : CallToolResult :=
  match handleDailyForecastCore args w with
  | Except.ok t => toTextResult t false
  | Except.error m => toTextResult ("Unable to fetch daily forecast. " ++ m) true

def handleHourlyForecastCore (args : RawArgs) (w : World) : Except String String :=
  match parseArguments (hourlyForecastArgumentParser args) with
  | Except.error e => Except.error e
  | Except.ok parsed =>
    match w.points with
    | Except.error e => Except.error e
    | Except.ok points =>
      match points.properties.forecastHourly with
      | none => Except.error "Hourly forecast URL not available for this coordinate."
      | some _ =>
        match w.hourly with
        | Except.error e => Except.error e
        | Except.ok forecast =>
          let periodsData := (forecast.properties.bind (·.periods)).getD []
          formatForecast periodsData parsed.hours
            ("Hourly forecast for " ++ ratToFixed parsed.latitude 4 ++ ", "
              ++ ratToFixed parsed.longitude 4)

def handleHourlyForecast (args : RawArgs) (w : World) : CallToolResult :=
  match handleHourlyForecastCore args w with
  | Except.ok t => toTextResult t false
  | Except.error m => toTextResult ("Unable to fetch hourly forecast. " ++ m) true

def handleClearSkyWindowCore (args : RawArgs) (w : World) : Except String String :=
  match parseArguments (clearSkyArgumentParser args) with
  | Except.error e => Except.error e
  | Except.ok parsed =>
    match w.points with
    | Except.error e => Except.error e
    | Except.ok points =>
      match points.properties.forecastGridData with
      | none => Except.error "Grid data URL not available for this coordinate."
      | some _ =>
        match w.grid with
        | Except.error e => Except.error e
        | Except.ok gridData =>
          let skySeries := (gridData.properties.skyCover.map (·.values)).getD []
          if skySeries.length = 0 then Except.error "Sky cover data not available."
          else
            let precipSeries :=
              (gridData.properties.probabilityOfPrecipitation.map (·.values)).getD []
            let visibilitySeries := (gridData.properties.visibility.map (·.values)).getD []
            let visibilityUnit := gridData.properties.visibility.bind (·.uom)
            let windowLength : ℚ := min parsed.horizonHours (skySeries.length : ℚ)
            match runClearSkyLoop skySeries precipSeries visibilitySeries visibilityUnit
                (jsLoopCount windowLength) with
            | Except.error e => Except.error e
            | Except.ok (rows, best) =>
              let highlight := match best with
                | some bi => rows.getD bi.1 ""
                | none => "No clear window detected."
              let insight := match best with
                | some _ => "Promising observing window: " ++ highlight
                | none => "No promising window identified within the requested horizon."
              Except.ok (jsJoin "\n" [
                "Clear sky analysis for " ++ ratToFixed parsed.latitude 4 ++ ", "
                  ++ ratToFixed parsed.longitude 4 ++ " (next "
                  ++ jsNumToString windowLength ++ " hours):",
                "",
                insight,
                "",
                "Hourly breakdown:",
                jsJoin "\n" rows])

def handleClearSkyWindow (args : RawArgs) (w : World) : CallToolResult :=
  match handleClearSkyWindowCore args w with
  | Except.ok t => toTextResult t false
  | Except.error m => toTextResult ("Unable to analyze clear sky window. " ++ m) true

/-- The `CallToolRequestSchema` handler: route by tool name; an unknown name
yields a flagged text response.  (The surrounding `try`/`catch` of the source
is inert here because every executor already converts its failures itself.) -/
def callTool (toolName : String) (args : RawArgs) (w : World) : CallToolResult :=
  if toolName = "resolve_point_metadata" then handleResolvePointMetadata args w
  else if toolName = "get_daily_forecast" then handleDailyForecast args w
  else if toolName = "get_hourly_forecast" then handleHourlyForecast args w
  else if toolName = "get_clear_sky_window" then handleClearSkyWindow args w
  else toTextResult ("Unknown tool: " ++ toolName) true

/-! ### Specification predicate and concrete sample data -/

/-- `b` is the earliest-argmin outcome over scores `score 0 .. score (n-1)`:
`none` exactly for an empty scan, otherwise the minimal score together with
the least index attaining it (every earlier index scores strictly higher). -/
def earliestArgmin (score : Nat → ℚ) (n : Nat) : Option (Nat × ℚ) → Prop
  | none => n = 0
  | some (j, m) =>
    j < n ∧ m = score j ∧ (∀ k, k < n → m ≤ score k) ∧ (∀ k, k < j → m < score k)

def samplePoints : PointsResponse :=
  ⟨{ gridId := some "TOP", gridX := some 31, gridY := some 80,
     forecast := some "https://api.weather.gov/gridpoints/TOP/31,80/forecast",
     forecastHourly := some "https://api.weather.gov/gridpoints/TOP/31,80/forecast/hourly",
     forecastGridData := some "https://api.weather.gov/gridpoints/TOP/31,80",
     timeZone := some "America/Chicago" }⟩

/-- Sky cover of the end-to-end scenario `[10,20,90,15,5,100]`. -/
def sampleSkySeries : List TimedNumberValue :=
  [⟨"2024-01-01T00:00:00+00:00/PT1H", some 10⟩,
   ⟨"2024-01-01T01:00:00+00:00/PT1H", some 20⟩,
   ⟨"2024-01-01T02:00:00+00:00/PT1H", some 90⟩,
   ⟨"2024-01-01T03:00:00+00:00/PT1H", some 15⟩,
   ⟨"2024-01-01T04:00:00+00:00/PT1H", some 5⟩,
   ⟨"2024-01-01T05:00:00+00:00/PT1H", some 100⟩]

/-- Precipitation of the end-to-end scenario `[0,0,80,10,0,5]`. -/
def samplePrecipSeries : List TimedNumberValue :=
  [⟨"2024-01-01T00:00:00+00:00/PT1H", some 0⟩,
   ⟨"2024-01-01T01:00:00+00:00/PT1H", some 0⟩,
   ⟨"2024-01-01T02:00:00+00:00/PT1H", some 80⟩,
   ⟨"2024-01-01T03:00:00+00:00/PT1H", some 10⟩,
   ⟨"2024-01-01T04:00:00+00:00/PT1H", some 0⟩,
   ⟨"2024-01-01T05:00:00+00:00/PT1H", some 5⟩]

def sampleVisibilitySeries : List TimedNumberValue :=
  [⟨"2024-01-01T00:00:00+00:00/PT1H", some 16000⟩,
   ⟨"2024-01-01T01:00:00+00:00/PT1H", none⟩,
   ⟨"2024-01-01T02:00:00+00:00/PT1H", some 500⟩]

def sampleWorld : World :=
  { points := Except.ok samplePoints
    daily := Except.ok {}
    hourly := Except.ok {}
    grid := Except.ok ⟨{
      skyCover := some ⟨some "wmoUnit:percent", sampleSkySeries⟩
      probabilityOfPrecipitation := some ⟨some "wmoUnit:percent", samplePrecipSeries⟩
      visibility := some ⟨some "wmoUnit:m", sampleVisibilitySeries⟩ }⟩ }

/-- A world whose grid document carries no sky-cover series. -/
def emptySkyWorld : World :=
  { points := Except.ok samplePoints
    daily := Except.ok {}
    hourly := Except.ok {}
    grid := Except.ok ⟨{}⟩ }

/-- A world whose single sky-cover sample has a malformed start instant. -/
def badStartWorld : World :=
  { points := Except.ok samplePoints
    daily := Except.ok {}
    hourly := Except.ok {}
    grid := Except.ok ⟨{
      skyCover := some ⟨some "wmoUnit:percent", [⟨"garbage-instant/PT1H", some 25⟩]⟩ }⟩ }

/-- Sky cover realizing the tie-break example: scores `[50, 30, 30, 40]`. -/
def tieSkySeries : List TimedNumberValue :=
  [⟨"2024-01-01T00:00:00+00:00/PT1H", some 50⟩,
   ⟨"2024-01-01T01:00:00+00:00/PT1H", some 30⟩,
   ⟨"2024-01-01T02:00:00+00:00/PT1H", some 30⟩,
   ⟨"2024-01-01T03:00:00+00:00/PT1H", some 40⟩]

def tiePrecipSeries : List TimedNumberValue :=
  [⟨"2024-01-01T00:00:00+00:00/PT1H", some 0⟩,
   ⟨"2024-01-01T01:00:00+00:00/PT1H", some 0⟩,
   ⟨"2024-01-01T02:00:00+00:00/PT1H", some 0⟩,
   ⟨"2024-01-01T03:00:00+00:00/PT1H", some 0⟩]

def goodArgs : RawArgs := { latitude := some 40, longitude := some (-100) }

/-! ## Theorems

The Batteries rational-number operations are `@[irreducible]`, which blocks
`decide`-style evaluation of the embedded functions on concrete inputs; the
proofs below restore default reducibility for them. -/

unseal Rat.mul Rat.inv Rat.add Rat.sub Rat.ofScientific

/-- C3: for every validTime string with a representable start instant, the
interval end is `start + 3600000` ms when the duration portion is absent
(no `/`) or the decoded duration is 0 (grammar failure included),
`start + duration` otherwise, and always `end > start`. -/
theorem parseValidTime_C3 (v : String) (t : Int)
    (h : (parseValidTime v).1 = some t) :
    ∃ e : Int, (parseValidTime v).2 = some e ∧ t < e ∧
      ((jsSplitSlash v)[1]? = none ∨ durationMsOf v = 0 → e = t + 3600000) ∧
      (0 < durationMsOf v → e = t + (durationMsOf v : Int)) := by
  have h1 : parseJsDate (((jsSplitSlash v)[0]?).getD "") = some t := h
  by_cases hd : 0 < durationMsOf v
  · refine ⟨t + (durationMsOf v : Int), ?_, ?_, ?_, fun _ => rfl⟩
    · simp [parseValidTime, h1, hd]
    · have hpos : (0 : Int) < (durationMsOf v : Int) := by exact_mod_cast hd
      omega
    · rintro (hc | hc)
      · exfalso
        unfold durationMsOf at hd
        rw [hc] at hd
        exact absurd hd (by simp)
      · omega
  · have hz : durationMsOf v = 0 := by omega
    refine ⟨t + 3600000, ?_, by omega, fun _ => rfl, fun hp => absurd hp hd⟩
    simp [parseValidTime, h1, hd]

/-- Witness for C3 at the concrete duration-free token. -/
theorem parseValidTime_C3_witness :
    (parseValidTime "2024-01-01T00:00:00Z").1 = some 1704067200000 ∧
    ∃ e : Int, (parseValidTime "2024-01-01T00:00:00Z").2 = some e ∧
      1704067200000 < e ∧
      ((jsSplitSlash "2024-01-01T00:00:00Z")[1]? = none ∨
        durationMsOf "2024-01-01T00:00:00Z" = 0 → e = 1704067200000 + 3600000) ∧
      (0 < durationMsOf "2024-01-01T00:00:00Z" →
        e = 1704067200000 + (durationMsOf "2024-01-01T00:00:00Z" : Int)) :=
  ⟨by decide, parseValidTime_C3 "2024-01-01T00:00:00Z" 1704067200000 (by decide)⟩

/-- C4: the visibility formatter's three-tier precedence — null renders
`unknown`; a meters tag converts to miles (whole miles at ≥ 10 mi, one
decimal at [1, 10) mi, kilometers to one decimal below 1 mi, the tier
thresholds being 16093.44 m and 1609.344 m); any other tag renders the raw
number; 16000 m gives `9.9 mi` and 500 m gives `0.5 km`. -/
theorem formatVisibility_C4 :
    (∀ uom, formatVisibility none uom = "unknown") ∧
    (∀ v : ℚ, (1609344 / 100 : ℚ) ≤ v →
      formatVisibility (some v) (some "wmoUnit:m")
        = ratToFixed (v / (1609344 / 1000 : ℚ)) 0 ++ " mi") ∧
    (∀ v : ℚ, (1609344 / 1000 : ℚ) ≤ v → v < (1609344 / 100 : ℚ) →
      formatVisibility (some v) (some "wmoUnit:m")
        = ratToFixed (v / (1609344 / 1000 : ℚ)) 1 ++ " mi") ∧
    (∀ v : ℚ, v < (1609344 / 1000 : ℚ) →
      formatVisibility (some v) (some "wmoUnit:m") = ratToFixed (v / 1000) 1 ++ " km") ∧
    (∀ (v : ℚ) (uom : Option String), uom ≠ some "wmoUnit:m" →
      formatVisibility (some v) uom = jsNumToString v) ∧
    formatVisibility (some 16000) (some "wmoUnit:m") = "9.9 mi" ∧
    formatVisibility (some 500) (some "wmoUnit:m") = "0.5 km" := by
  refine ⟨fun _ => rfl, ?_, ?_, ?_, ?_, by decide, by decide⟩
  · intro v hv
    have h10 : (10 : ℚ) ≤ v / (1609344 / 1000) := by
      rw [le_div_iff₀ (by norm_num)]
      linarith
    simp [formatVisibility, h10]
  · intro v h1 h2
    have h10 : ¬ (10 : ℚ) ≤ v / (1609344 / 1000) := by
      rw [not_le, div_lt_iff₀ (by norm_num)]
      linarith
    have h1m : (1 : ℚ) ≤ v / (1609344 / 1000) := by
      rw [le_div_iff₀ (by norm_num)]
      linarith
    simp [formatVisibility, h10, h1m]
  · intro v hv
    have h10 : ¬ (10 : ℚ) ≤ v / (1609344 / 1000) := by
      rw [not_le, div_lt_iff₀ (by norm_num)]
      linarith
    have h1m : ¬ (1 : ℚ) ≤ v / (1609344 / 1000) := by
      rw [not_le, div_lt_iff₀ (by norm_num)]
      linarith
    simp [formatVisibility, h10, h1m]
  · intro v uom h
    simp [formatVisibility, h]

/-- Witness for C4's conditional tiers at concrete inputs. -/
theorem formatVisibility_C4_witness :
    formatVisibility (some 32000) (some "wmoUnit:m")
      = ratToFixed ((32000 : ℚ) / (1609344 / 1000 : ℚ)) 0 ++ " mi" ∧
    formatVisibility (some 16000) (some "wmoUnit:m")
      = ratToFixed ((16000 : ℚ) / (1609344 / 1000 : ℚ)) 1 ++ " mi" ∧
    formatVisibility (some 500) (some "wmoUnit:m")
      = ratToFixed ((500 : ℚ) / 1000) 1 ++ " km" ∧
    formatVisibility (some 16000) none = jsNumToString 16000 :=
  ⟨formatVisibility_C4.2.1 32000 (by norm_num),
   formatVisibility_C4.2.2.1 16000 (by norm_num) (by norm_num),
   formatVisibility_C4.2.2.2.1 500 (by norm_num),
   formatVisibility_C4.2.2.2.2.1 16000 none (by decide)⟩

/-- An out-of-range numeric field always produces a single issue whose path
is the field's name. -/
theorem numberFieldCheck_out_of_range (path : String) (lo hi : Int) (dflt : Option ℚ)
    (q : ℚ) (h : q < (lo : ℚ) ∨ (hi : ℚ) < q) :
    ∃ msg, numberFieldCheck path lo hi dflt (some q) = Except.error ⟨[path], msg⟩ := by
  rw [numberFieldCheck]
  rcases h with h | h
  · rw [if_pos h]
    exact ⟨_, rfl⟩
  · by_cases h2 : q < (lo : ℚ)
    · rw [if_pos h2]
      exact ⟨_, rfl⟩
    · rw [if_neg h2, if_pos h]
      exact ⟨_, rfl⟩

/-- A field that validates successfully is either the default (for an absent
input) or the in-range input itself. -/
theorem numberFieldCheck_ok_elim (path : String) (lo hi : Int) (dflt : Option ℚ)
    (v : Option ℚ) (q : ℚ) (h : numberFieldCheck path lo hi dflt v = Except.ok q) :
    (v = none ∧ dflt = some q) ∨ (v = some q ∧ (lo : ℚ) ≤ q ∧ q ≤ (hi : ℚ)) := by
  cases v with
  | none =>
    cases dflt with
    | none => simp [numberFieldCheck] at h
    | some d =>
      left
      simp [numberFieldCheck] at h
      simp [h]
  | some x =>
    by_cases h1 : x < (lo : ℚ)
    · simp [numberFieldCheck, h1] at h
    · by_cases h2 : (hi : ℚ) < x
      · simp [numberFieldCheck, h1, h2] at h
      · right
        simp [numberFieldCheck, h1, h2] at h
        subst h
        exact ⟨rfl, not_lt.mp h1, not_lt.mp h2⟩

/-- C5: a latitude and an hours value that are both out of range make
validation fail before any fetch (the result is the same in every world),
and the single combined message enumerates both offending fields. -/
theorem validation_C5 (args : RawArgs) (la hv : ℚ) (w w2 : World)
    (hla : args.latitude = some la) (hh : args.hours = some hv)
    (hlaBad : la < -90 ∨ 90 < la) (hhBad : hv < 1 ∨ 24 < hv) :
    ∃ issues, hourlyForecastArgumentParser args = Except.error issues ∧
      (∃ i ∈ issues, i.path = ["latitude"]) ∧
      (∃ i ∈ issues, i.path = ["hours"]) ∧
      handleHourlyForecast args w
        = toTextResult ("Unable to fetch hourly forecast. " ++ formatZodIssues issues) true ∧
      handleHourlyForecast args w = handleHourlyForecast args w2 := by
  obtain ⟨m1, e1⟩ := numberFieldCheck_out_of_range "latitude" (-90) 90 none la hlaBad
  obtain ⟨m2, e2⟩ := numberFieldCheck_out_of_range "hours" 1 24 (some 6) hv hhBad
  rw [← hla] at e1
  rw [← hh] at e2
  have hpar : hourlyForecastArgumentParser args = Except.error
      (issuesOf (numberFieldCheck "latitude" (-90) 90 none args.latitude)
        ++ issuesOf (numberFieldCheck "longitude" (-180) 180 none args.longitude)
        ++ issuesOf (numberFieldCheck "hours" 1 24 (some 6) args.hours)) := by
    cases hlo : numberFieldCheck "longitude" (-180) 180 none args.longitude with
    | ok lov => rw [hourlyForecastArgumentParser, e1, e2, hlo]
    | error i => rw [hourlyForecastArgumentParser, e1, e2, hlo]
  refine ⟨_, hpar, ⟨⟨["latitude"], m1⟩, ?_, rfl⟩, ⟨⟨["hours"], m2⟩, ?_, rfl⟩, ?_, ?_⟩
  · rw [e1]
    simp [issuesOf]
  · rw [e2]
    simp [issuesOf]
  · simp only [handleHourlyForecast, handleHourlyForecastCore, hpar, parseArguments]
  · simp only [handleHourlyForecast, handleHourlyForecastCore, hpar, parseArguments]

/-- Witness for C5 with latitude 200 and hours 50. -/
theorem validation_C5_witness :
    ∃ issues, hourlyForecastArgumentParser
        { latitude := some 200, longitude := some 0, hours := some 50 } = Except.error issues ∧
      (∃ i ∈ issues, i.path = ["latitude"]) ∧
      (∃ i ∈ issues, i.path = ["hours"]) ∧
      handleHourlyForecast { latitude := some 200, longitude := some 0, hours := some 50 }
          sampleWorld
        = toTextResult ("Unable to fetch hourly forecast. " ++ formatZodIssues issues) true ∧
      handleHourlyForecast { latitude := some 200, longitude := some 0, hours := some 50 }
          sampleWorld
        = handleHourlyForecast { latitude := some 200, longitude := some 0, hours := some 50 }
            emptySkyWorld :=
  validation_C5 _ 200 50 sampleWorld emptySkyWorld rfl rfl
    (Or.inr (by norm_num)) (Or.inr (by norm_num))

/-- C7 (amended): an omitted horizonHours defaults to 12; an in-range value
is used exactly as supplied; an out-of-range value is rejected with a
validation error — it is not brought into range. -/
theorem horizon_C7 :
    (∀ args parsed, args.horizonHours = none →
       clearSkyArgumentParser args = Except.ok parsed → parsed.horizonHours = 12) ∧
    (∀ args parsed x, args.horizonHours = some x →
       clearSkyArgumentParser args = Except.ok parsed →
       parsed.horizonHours = x ∧ 3 ≤ x ∧ x ≤ 24) ∧
    (∀ args x w, args.horizonHours = some x → (x < 3 ∨ 24 < x) →
       (handleClearSkyWindow args w).isError = true) := by
  have okCase : ∀ args parsed, clearSkyArgumentParser args = Except.ok parsed →
      numberFieldCheck "horizonHours" 3 24 (some 12) args.horizonHours
        = Except.ok parsed.horizonHours := by
    intro args parsed h
    rw [clearSkyArgumentParser] at h
    cases hla : numberFieldCheck "latitude" (-90) 90 none args.latitude with
    | error i => rw [hla] at h; cases h
    | ok la =>
      cases hlo : numberFieldCheck "longitude" (-180) 180 none args.longitude with
      | error i => rw [hla, hlo] at h; cases h
      | ok lo =>
        cases hh : numberFieldCheck "horizonHours" 3 24 (some 12) args.horizonHours with
        | error i => rw [hla, hlo, hh] at h; cases h
        | ok hq =>
          rw [hla, hlo, hh] at h
          injection h with h2
          subst h2
          rfl
  refine ⟨?_, ?_, ?_⟩
  · intro args parsed hnone hok
    have h := okCase args parsed hok
    rcases numberFieldCheck_ok_elim _ _ _ _ _ _ h with ⟨_, hd⟩ | ⟨hs, _⟩
    · injection hd with hd2
      exact hd2.symm
    · rw [hnone] at hs
      cases hs
  · intro args parsed x hsome hok
    have h := okCase args parsed hok
    rcases numberFieldCheck_ok_elim _ _ _ _ _ _ h with ⟨hn, _⟩ | ⟨hs, hlo, hhi⟩
    · rw [hsome] at hn
      cases hn
    · rw [hsome] at hs
      injection hs with hs2
      rw [hs2]
      refine ⟨rfl, by exact_mod_cast hlo, by exact_mod_cast hhi⟩
  · intro args x w hsome hbad
    obtain ⟨m, e⟩ := numberFieldCheck_out_of_range "horizonHours" 3 24 (some 12) x
      (by exact_mod_cast hbad)
    rw [← hsome] at e
    have hpar : clearSkyArgumentParser args = Except.error
        (issuesOf (numberFieldCheck "latitude" (-90) 90 none args.latitude)
          ++ issuesOf (numberFieldCheck "longitude" (-180) 180 none args.longitude)
          ++ issuesOf (numberFieldCheck "horizonHours" 3 24 (some 12) args.horizonHours)) := by
      cases hla : numberFieldCheck "latitude" (-90) 90 none args.latitude with
      | ok la =>
        cases hlo : numberFieldCheck "longitude" (-180) 180 none args.longitude with
        | ok lo => rw [clearSkyArgumentParser, hla, hlo, e]
        | error i => rw [clearSkyArgumentParser, hla, hlo, e]
      | error i =>
        cases hlo : numberFieldCheck "longitude" (-180) 180 none args.longitude with
        | ok lo => rw [clearSkyArgumentParser, hla, hlo, e]
        | error i2 => rw [clearSkyArgumentParser, hla, hlo, e]
    simp only [handleClearSkyWindow, handleClearSkyWindowCore, hpar, parseArguments,
      toTextResult]

/-- C7 counterexample: horizonHours = 50 is not clamped to 24 — the
operation refuses to proceed and reports a validation error, with all the
upstream data present and well-formed. -/
theorem horizon_C7_counterexample :
    handleClearSkyWindow
        { latitude := some 40, longitude := some (-100), horizonHours := some 50 } sampleWorld
      = toTextResult
          "Unable to analyze clear sky window. horizonHours: Number must be less than or equal to 24"
          true ∧
    (handleClearSkyWindow goodArgs sampleWorld).isError = false := by
  constructor
  · decide
  · decide

/-- Witness for C7 at an omitted horizonHours and at horizonHours 50. -/
theorem horizon_C7_witness :
    (⟨40, -100, 12⟩ : ClearSkyArgs).horizonHours = 12 ∧
    (handleClearSkyWindow
        { latitude := some 40, longitude := some (-100), horizonHours := some 50 }
        emptySkyWorld).isError = true :=
  ⟨horizon_C7.1 goodArgs ⟨40, -100, 12⟩ rfl (by decide),
   horizon_C7.2.2 _ 50 emptySkyWorld rfl (Or.inr (by norm_num))⟩

/-- Every executor yields a single-text-content result. -/
theorem handleResolvePointMetadata_shape (args : RawArgs) (w : World) :
    ∃ t b, handleResolvePointMetadata args w = toTextResult t b := by
  rw [handleResolvePointMetadata]
  cases handleResolvePointMetadataCore args w <;> exact ⟨_, _, rfl⟩

theorem handleDailyForecast_shape (args : RawArgs) (w : World) :
    ∃ t b, handleDailyForecast args w = toTextResult t b := by
  rw [handleDailyForecast]
  cases handleDailyForecastCore args w <;> exact ⟨_, _, rfl⟩

theorem handleHourlyForecast_shape (args : RawArgs) (w : World) :
    ∃ t b, handleHourlyForecast args w = toTextResult t b := by
  rw [handleHourlyForecast]
  cases handleHourlyForecastCore args w <;> exact ⟨_, _, rfl⟩

theorem handleClearSkyWindow_shape (args : RawArgs) (w : World) :
    ∃ t b, handleClearSkyWindow args w = toTextResult t b := by
  rw [handleClearSkyWindow]
  cases handleClearSkyWindowCore args w <;> exact ⟨_, _, rfl⟩

/-- C6: the tool-call boundary always answers with a rendered text result or
a flagged text error for every tool name, argument map and world — validation
errors, fetch failures and coverage gaps are all converted inside the
executors — and an unknown tool name yields the flagged `Unknown tool`
response rather than an exception. -/
theorem boundary_C6 (name : String) (args : RawArgs) (w : World) :
    (∃ t b, callTool name args w = toTextResult t b) ∧
    (name ≠ "resolve_point_metadata" → name ≠ "get_daily_forecast" →
     name ≠ "get_hourly_forecast" → name ≠ "get_clear_sky_window" →
     callTool name args w = toTextResult ("Unknown tool: " ++ name) true) := by
  rw [callTool]
  by_cases h1 : name = "resolve_point_metadata"
  · simp only [h1, if_true]
    exact ⟨handleResolvePointMetadata_shape args w, fun hc _ _ _ => absurd rfl hc⟩
  · rw [if_neg h1]
    by_cases h2 : name = "get_daily_forecast"
    · simp only [h2, if_true]
      exact ⟨handleDailyForecast_shape args w, fun _ hc _ _ => absurd rfl hc⟩
    · rw [if_neg h2]
      by_cases h3 : name = "get_hourly_forecast"
      · simp only [h3, if_true]
        exact ⟨handleHourlyForecast_shape args w, fun _ _ hc _ => absurd rfl hc⟩
      · rw [if_neg h3]
        by_cases h4 : name = "get_clear_sky_window"
        · simp only [h4, if_true]
          exact ⟨handleClearSkyWindow_shape args w, fun _ _ _ hc => absurd rfl hc⟩
        · rw [if_neg h4]
          exact ⟨⟨_, _, rfl⟩, fun _ _ _ _ => rfl⟩

/-- Witness for C6 at an unknown tool name. -/
theorem boundary_C6_witness :
    callTool "bogus_tool" goodArgs sampleWorld
      = toTextResult ("Unknown tool: " ++ "bogus_tool") true :=
  (boundary_C6 "bogus_tool" goodArgs sampleWorld).2
    (by decide) (by decide) (by decide) (by decide)


/-- On success the loop emits one row per index. -/
theorem clearSkyLoopAux_ok_length (sky precip vis : List TimedNumberValue) (u : Option String) :
    ∀ (is : List Nat) (b : Option (Nat × ℚ)) (rows rs : List String) (bout : Option (Nat × ℚ)),
    clearSkyLoopAux sky precip vis u is b rows = Except.ok (rs, bout) →
    rs.length = rows.length + is.length
  | [], b, rows, rs, bout => by
    intro h
    simp only [clearSkyLoopAux, Except.ok.injEq, Prod.mk.injEq] at h
    rw [← h.1]
    simp
  | i :: is, b, rows, rs, bout => by
    intro h
    cases hsk : sky[i]? with
    | none =>
      simp only [clearSkyLoopAux, hsk] at h
      exact Except.noConfusion h
    | some sk =>
      cases hft : formatTimeRange sk.validTime with
      | error e =>
        simp only [clearSkyLoopAux, hsk, hft] at h
        exact Except.noConfusion h
      | ok timeLabel =>
        simp only [clearSkyLoopAux, hsk, hft] at h
        have ih := clearSkyLoopAux_ok_length sky precip vis u is _ _ _ _ h
        rw [ih]
        simp only [List.length_cons]
        omega

/-- On success the final best pair is the `bestUpdate` fold of the scores. -/
theorem clearSkyLoopAux_ok_best (sky precip vis : List TimedNumberValue) (u : Option String) :
    ∀ (is : List Nat) (b : Option (Nat × ℚ)) (rows rs : List String) (bout : Option (Nat × ℚ)),
    clearSkyLoopAux sky precip vis u is b rows = Except.ok (rs, bout) →
    bout = is.foldl (fun acc i => bestUpdate acc i (scoreAt sky precip i)) b
  | [], b, rows, rs, bout => by
    intro h
    simp only [clearSkyLoopAux, Except.ok.injEq, Prod.mk.injEq] at h
    rw [← h.2]
    rfl
  | i :: is, b, rows, rs, bout => by
    intro h
    cases hsk : sky[i]? with
    | none =>
      simp only [clearSkyLoopAux, hsk] at h
      exact Except.noConfusion h
    | some sk =>
      cases hft : formatTimeRange sk.validTime with
      | error e =>
        simp only [clearSkyLoopAux, hsk, hft] at h
        exact Except.noConfusion h
      | ok timeLabel =>
        simp only [clearSkyLoopAux, hsk, hft] at h
        have ih := clearSkyLoopAux_ok_best sky precip vis u is _ _ _ _ h
        rw [ih]
        rfl

/-- The end instant of `parseValidTime` mirrors the start instant. -/
theorem parseValidTime_snd (v : String) :
    (parseValidTime v).2 = (parseValidTime v).1.map
      (· + ((if 0 < durationMsOf v then durationMsOf v else 3600000 : Nat) : Int)) := rfl

/-- `formatTimeRange` succeeds exactly on a representable start instant. -/
theorem formatTimeRange_ok_of_start (v : String) (t : Int)
    (h : (parseValidTime v).1 = some t) : ∃ s, formatTimeRange v = Except.ok s := by
  have h2 := parseValidTime_snd v
  rw [h] at h2
  simp only [Option.map] at h2
  refine ⟨isoStringOfMs t ++ " → "
    ++ isoStringOfMs (t + ((if 0 < durationMsOf v then durationMsOf v else 3600000 : Nat) : Int)), ?_⟩
  rw [formatTimeRange]
  simp only [h, h2, jsToISOString]
  rfl

/-- `formatTimeRange` throws `Invalid time value` on an Invalid-Date start. -/
theorem formatTimeRange_error_of_none (v : String)
    (h : (parseValidTime v).1 = none) :
    formatTimeRange v = Except.error "Invalid time value" := by
  rw [formatTimeRange]
  simp only [h, jsToISOString]
  rfl

/-- When every scanned index has a sky sample with a representable start,
the loop runs to completion. -/
theorem clearSkyLoopAux_success (sky precip vis : List TimedNumberValue) (u : Option String) :
    ∀ (is : List Nat) (b : Option (Nat × ℚ)) (rows : List String),
    (∀ i ∈ is, ((sky[i]?).bind fun sk => (parseValidTime sk.validTime).1).isSome) →
    ∃ rs bout, clearSkyLoopAux sky precip vis u is b rows = Except.ok (rs, bout)
  | [], b, rows => fun _ => ⟨rows.reverse, b, rfl⟩
  | i :: is, b, rows => by
    intro hgood
    have hi := hgood i (List.mem_cons_self i is)
    cases hsk : sky[i]? with
    | none => rw [hsk] at hi; simp at hi
    | some sk =>
      rw [hsk] at hi
      simp only [Option.bind] at hi
      cases hst : (parseValidTime sk.validTime).1 with
      | none => rw [hst] at hi; simp at hi
      | some t =>
        obtain ⟨s, hs⟩ := formatTimeRange_ok_of_start sk.validTime t hst
        simp only [clearSkyLoopAux, hsk, hs]
        exact clearSkyLoopAux_success sky precip vis u is _ _
          (fun j hj => hgood j (List.mem_cons_of_mem i hj))

/-- If every scanned index has a sky sample but some scanned index has an
unrepresentable start instant, the loop throws `Invalid time value`. -/
theorem clearSkyLoopAux_error (sky precip vis : List TimedNumberValue) (u : Option String) :
    ∀ (is : List Nat) (b : Option (Nat × ℚ)) (rows : List String),
    (∀ i ∈ is, (sky[i]?).isSome) →
    (∃ i ∈ is, ((sky[i]?).bind fun sk => (parseValidTime sk.validTime).1) = none) →
    clearSkyLoopAux sky precip vis u is b rows = Except.error "Invalid time value"
  | [], b, rows => by
    intro _ hbad
    obtain ⟨i, hi, _⟩ := hbad
    cases hi
  | i :: is, b, rows => by
    intro hsome hbad
    have hi := hsome i (List.mem_cons_self i is)
    cases hsk : sky[i]? with
    | none => rw [hsk] at hi; simp at hi
    | some sk =>
      cases hst : (parseValidTime sk.validTime).1 with
      | none =>
        have hft := formatTimeRange_error_of_none sk.validTime hst
        simp only [clearSkyLoopAux, hsk, hft]
      | some t =>
        obtain ⟨s, hs⟩ := formatTimeRange_ok_of_start sk.validTime t hst
        simp only [clearSkyLoopAux, hsk, hs]
        refine clearSkyLoopAux_error sky precip vis u is _ _
          (fun j hj => hsome j (List.mem_cons_of_mem i hj)) ?_
        obtain ⟨j, hj, hjbad⟩ := hbad
        rcases List.mem_cons.mp hj with rfl | hj2
        · rw [hsk] at hjbad
          simp only [Option.bind] at hjbad
          rw [hst] at hjbad
          cases hjbad
        · exact ⟨j, hj2, hjbad⟩

/-- The `bestUpdate` fold over `List.range n` is the earliest argmin. -/
theorem bestUpdate_range_earliestArgmin (score : Nat → ℚ) :
    ∀ n : Nat, earliestArgmin score n
      ((List.range n).foldl (fun acc i => bestUpdate acc i (score i)) none) := by
  intro n
  induction n with
  | zero => simp [earliestArgmin]
  | succ n ih =>
    rw [List.range_succ, List.foldl_append]
    set b := (List.range n).foldl (fun acc i => bestUpdate acc i (score i)) none with hb
    simp only [List.foldl_cons, List.foldl_nil]
    cases hbv : b with
    | none =>
      rw [hbv] at ih
      have hn0 : n = 0 := ih
      subst hn0
      refine ⟨Nat.zero_lt_one, rfl, ?_, ?_⟩
      · intro k hk
        interval_cases k
        exact le_refl _
      · intro k hk
        exact absurd hk (Nat.not_lt_zero k)
    | some jm =>
      obtain ⟨j, m⟩ := jm
      rw [hbv] at ih
      obtain ⟨hjn, hjs, hmin, hearliest⟩ := ih
      by_cases hlt : score n < m
      · simp only [bestUpdate, if_pos hlt]
        refine ⟨Nat.lt_succ_self n, rfl, ?_, ?_⟩
        · intro k hk
          rcases Nat.lt_succ_iff_lt_or_eq.mp hk with hk2 | rfl
          · exact le_of_lt (lt_of_lt_of_le hlt (hmin k hk2))
          · exact le_refl _
        · intro k hk
          exact lt_of_lt_of_le hlt (hmin k hk)
      · simp only [bestUpdate, if_neg hlt]
        refine ⟨Nat.lt_succ_of_lt hjn, hjs, ?_, hearliest⟩
        intro k hk
        rcases Nat.lt_succ_iff_lt_or_eq.mp hk with hk2 | rfl
        · exact hmin k hk2
        · exact not_lt.mp hlt

theorem jsLoopCount_natCast_min (H L : Nat) :
    jsLoopCount (min (H : ℚ) (L : ℚ)) = min H L := by
  have h : ((min H L : Nat) : ℚ) = min (H : ℚ) (L : ℚ) := by simp
  rw [jsLoopCount, ← h, Nat.ceil_natCast]

theorem jsLoopCount_le (q : ℚ) (L : Nat) : jsLoopCount (min q (L : ℚ)) ≤ L := by
  rw [jsLoopCount]
  calc ⌈min q (L : ℚ)⌉₊ ≤ ⌈(L : ℚ)⌉₊ := Nat.ceil_mono (min_le_right _ _)
    _ = L := Nat.ceil_natCast L

theorem jsLoopCount_pos (q : ℚ) (L : Nat) (hq : 3 ≤ q) (hL : L ≠ 0) :
    1 ≤ jsLoopCount (min q (L : ℚ)) := by
  rw [jsLoopCount]
  have hL1 : (0 : ℚ) < (L : ℚ) := by exact_mod_cast Nat.pos_of_ne_zero hL
  exact Nat.ceil_pos.mpr (lt_min (by linarith) hL1)

theorem isSome_getElem_of_lt (l : List TimedNumberValue) (i : Nat) (h : i < l.length) :
    (l[i]?).isSome := by
  rw [List.getElem?_eq_getElem h]
  rfl

/-- A successful `parseArguments` reflects a successful schema parse. -/
theorem parseArguments_ok_elim {α : Type} (r : Except (List ZodIssue) α) (a : α)
    (h : parseArguments r = Except.ok a) : r = Except.ok a := by
  cases r with
  | ok x =>
    injection h with h2
    rw [h2]
  | error i => cases h

/-- A successful clear-sky parse carries a successful horizon field check. -/
theorem clearSkyParserField (args : RawArgs) (parsed : ClearSkyArgs)
    (h : clearSkyArgumentParser args = Except.ok parsed) :
    numberFieldCheck "horizonHours" 3 24 (some 12) args.horizonHours
      = Except.ok parsed.horizonHours := by
  rw [clearSkyArgumentParser] at h
  cases hla : numberFieldCheck "latitude" (-90) 90 none args.latitude with
  | error i => rw [hla] at h; cases h
  | ok la =>
    cases hlo : numberFieldCheck "longitude" (-180) 180 none args.longitude with
    | error i => rw [hla, hlo] at h; cases h
    | ok lo =>
      cases hh : numberFieldCheck "horizonHours" 3 24 (some 12) args.horizonHours with
      | error i => rw [hla, hlo, hh] at h; cases h
      | ok hq =>
        rw [hla, hlo, hh] at h
        injection h with h2
        subst h2
        rfl

/-- A validated horizon is at least 3 (the default 12 included). -/
theorem clearSkyParser_horizon_ge3 (args : RawArgs) (parsed : ClearSkyArgs)
    (h : clearSkyArgumentParser args = Except.ok parsed) : 3 ≤ parsed.horizonHours := by
  have h2 := clearSkyParserField args parsed h
  rcases numberFieldCheck_ok_elim _ _ _ _ _ _ h2 with ⟨_, hd⟩ | ⟨_, hlo, _⟩
  · injection hd with hd2
    rw [← hd2]
    norm_num
  · exact_mod_cast hlo

/-- A nonempty fold of `bestUpdate` over a range yields a best pair. -/
theorem bestFold_isSome (score : Nat → ℚ) (n : Nat) (hn : n ≠ 0) :
    ∃ j m, (List.range n).foldl (fun acc i => bestUpdate acc i (score i)) none
      = some (j, m) := by
  have hinv := bestUpdate_range_earliestArgmin score n
  cases hb : (List.range n).foldl (fun acc i => bestUpdate acc i (score i)) none with
  | none =>
    rw [hb] at hinv
    exact absurd hinv hn
  | some jm =>
    obtain ⟨j, m⟩ := jm
    exact ⟨j, m, rfl⟩


/-- C1: each row is scored `skyValue + 0.5 × precipValue` with the sentinel
100 substituted for a missing sample or value, and the loop's recommendation
is the earliest index attaining the minimal score (a row replaces the
incumbent only on a strictly lower score). -/
theorem scoring_C1 (sky precip vis : List TimedNumberValue) (u : Option String)
    (count : Nat) (j : Nat) (m : ℚ)
    (h : clearSkyBestOf sky precip vis u count = some (some (j, m))) :
    (j < count ∧ m = scoreAt sky precip j ∧
      (∀ k, k < count → m ≤ scoreAt sky precip k) ∧
      (∀ k, k < j → m < scoreAt sky precip k)) ∧
    (∀ i, scoreAt sky precip i = skyValueAt sky i + precipValueAt precip i * (1 / 2)) ∧
    (∀ i, sky[i]? = none → skyValueAt sky i = 100) ∧
    (∀ i sk, sky[i]? = some sk → sk.value = none → skyValueAt sky i = 100) ∧
    (∀ i, precip[i]? = none → precipValueAt precip i = 100) ∧
    (∀ i pk, precip[i]? = some pk → pk.value = none → precipValueAt precip i = 100) := by
  have hrun : ∃ rs, runClearSkyLoop sky precip vis u count = Except.ok (rs, some (j, m)) := by
    rw [clearSkyBestOf] at h
    cases hr : runClearSkyLoop sky precip vis u count with
    | error e => rw [hr] at h; cases h
    | ok p =>
      rw [hr] at h
      injection h with h2
      exact ⟨p.1, by rw [← h2]⟩
  obtain ⟨rs, hr⟩ := hrun
  have hbest := clearSkyLoopAux_ok_best sky precip vis u _ _ _ _ _ hr
  have hinv := bestUpdate_range_earliestArgmin (scoreAt sky precip) count
  rw [← hbest] at hinv
  obtain ⟨h1, h2, h3, h4⟩ := hinv
  refine ⟨⟨h1, h2, h3, h4⟩, fun i => rfl, ?_, ?_, ?_, ?_⟩
  · intro i hi
    rw [skyValueAt, hi]
    rfl
  · intro i sk hsk hv
    rw [skyValueAt, hsk]
    simp [Option.bind, hv]
  · intro i hi
    rw [precipValueAt, hi]
    rfl
  · intro i pk hpk hv
    rw [precipValueAt, hpk]
    simp [Option.bind, hv]

/-- Witness for C1: scores `[50, 30, 30, 40]` recommend index 1, not 2. -/
theorem scoring_C1_witness :
    1 < 4 ∧ (30 : ℚ) = scoreAt tieSkySeries tiePrecipSeries 1 ∧
    (30 : ℚ) < scoreAt tieSkySeries tiePrecipSeries 0 := by
  have h := scoring_C1 tieSkySeries tiePrecipSeries [] none 4 1 30 (by decide)
  exact ⟨h.1.1, h.1.2.1, h.1.2.2.2 0 (by decide)⟩

/-- C2 (amended): for a sky series of length `L ≥ 1` whose window samples
all carry representable start instants and a validated horizon `H`, the loop
bound is `min(H, L)` and exactly `min(H, L)` rows are emitted, whatever the
precipitation and visibility series are. -/
theorem aligner_C2 (sky precip vis : List TimedNumberValue) (u : Option String) (H : Nat)
    (_h3 : 3 ≤ H) (_hL : 1 ≤ sky.length)
    (hgood : ∀ i, i < min H sky.length →
      ((sky[i]?).bind fun sk => (parseValidTime sk.validTime).1).isSome) :
    jsLoopCount (min (H : ℚ) (sky.length : ℚ)) = min H sky.length ∧
    ∃ rows best, runClearSkyLoop sky precip vis u (min H sky.length)
        = Except.ok (rows, best) ∧ rows.length = min H sky.length := by
  refine ⟨jsLoopCount_natCast_min H sky.length, ?_⟩
  obtain ⟨rs, bout, hr⟩ := clearSkyLoopAux_success sky precip vis u
    (List.range (min H sky.length)) none []
    (fun i hi => hgood i (List.mem_range.mp hi))
  refine ⟨rs, bout, hr, ?_⟩
  have hlen := clearSkyLoopAux_ok_length sky precip vis u _ _ _ _ _ hr
  simpa using hlen

/-- Witness for C2 at the tie series with horizon 3. -/
theorem aligner_C2_witness :
    jsLoopCount (min ((3 : Nat) : ℚ) ((tieSkySeries.length : Nat) : ℚ))
      = min 3 tieSkySeries.length ∧
    ∃ rows best, runClearSkyLoop tieSkySeries tiePrecipSeries [] none
        (min 3 tieSkySeries.length) = Except.ok (rows, best) ∧
      rows.length = min 3 tieSkySeries.length :=
  aligner_C2 tieSkySeries tiePrecipSeries [] none 3 (by decide) (by decide) (by decide)

/-- C2 counterexample: a sky series of length 1 with a malformed start
instant and horizon 3 makes the loop throw instead of emitting
`min(3, 1) = 1` row. -/
theorem aligner_C2_counterexample :
    ([⟨"garbage", some 10⟩] : List TimedNumberValue).length = 1 ∧
    runClearSkyLoop [⟨"garbage", some 10⟩] [] [] none (min 3 1)
      = Except.error "Invalid time value" :=
  ⟨rfl, by decide⟩

/-- C8 (amended): a malformed sky-cover start instant parses to an Invalid
Date, and when such a sample lies inside the analyzed window the operation
emits no rows: rendering its time label throws, and the thrown `RangeError`
is surfaced to the caller as the flagged error response. -/
theorem malformed_C8 (args : RawArgs) (w : World) (parsed : ClearSkyArgs)
    (points : PointsResponse) (url : String) (grid : GridpointResponse)
    (sky : List TimedNumberValue) (i : Nat)
    (hp : clearSkyArgumentParser args = Except.ok parsed)
    (hw : w.points = Except.ok points)
    (hu : points.properties.forecastGridData = some url)
    (hg : w.grid = Except.ok grid)
    (hsky : (grid.properties.skyCover.map (·.values)).getD [] = sky)
    (hlen : sky.length ≠ 0)
    (hi : i < jsLoopCount (min parsed.horizonHours (sky.length : ℚ)))
    (hbad : ((sky[i]?).bind fun sk => (parseValidTime sk.validTime).1) = none) :
    handleClearSkyWindow args w
      = toTextResult "Unable to analyze clear sky window. Invalid time value" true := by
  have hcle : jsLoopCount (min parsed.horizonHours (sky.length : ℚ)) ≤ sky.length :=
    jsLoopCount_le _ _
  have herr2 : runClearSkyLoop sky
      ((grid.properties.probabilityOfPrecipitation.map (·.values)).getD [])
      ((grid.properties.visibility.map (·.values)).getD [])
      (grid.properties.visibility.bind (·.uom))
      (jsLoopCount (min parsed.horizonHours (sky.length : ℚ)))
      = Except.error "Invalid time value" := by
    rw [runClearSkyLoop]
    exact clearSkyLoopAux_error sky
      ((grid.properties.probabilityOfPrecipitation.map (·.values)).getD [])
      ((grid.properties.visibility.map (·.values)).getD [])
      (grid.properties.visibility.bind (·.uom))
      (List.range (jsLoopCount (min parsed.horizonHours (sky.length : ℚ)))) none []
      (fun j hj => isSome_getElem_of_lt sky j
        (lt_of_lt_of_le (List.mem_range.mp hj) hcle))
      ⟨i, List.mem_range.mpr hi, hbad⟩
  have hmsg : "Unable to analyze clear sky window. " ++ "Invalid time value"
      = "Unable to analyze clear sky window. Invalid time value" := by decide
  rw [handleClearSkyWindow]
  simp only [handleClearSkyWindowCore, hp, parseArguments, hw, hu, hg, hsky, hlen,
    if_false, herr2]
  rw [hmsg]

/-- Witness for C8 at the concrete bad-start world. -/
theorem malformed_C8_witness :
    handleClearSkyWindow goodArgs badStartWorld
      = toTextResult "Unable to analyze clear sky window. Invalid time value" true :=
  malformed_C8 goodArgs badStartWorld ⟨40, -100, 12⟩ samplePoints
    "https://api.weather.gov/gridpoints/TOP/31,80"
    ⟨{ skyCover := some ⟨some "wmoUnit:percent", [⟨"garbage-instant/PT1H", some 25⟩]⟩ }⟩
    [⟨"garbage-instant/PT1H", some 25⟩] 0
    (by decide) rfl rfl rfl rfl (by decide) (by decide) (by decide)

/-- C8 counterexample: at the bad-start world the condition is surfaced to
the caller as a failure-flagged response — the rows are not emitted. -/
theorem malformed_C8_counterexample :
    handleClearSkyWindow goodArgs badStartWorld
      = toTextResult "Unable to analyze clear sky window. Invalid time value" true ∧
    (handleClearSkyWindow goodArgs badStartWorld).isError = true := by
  constructor
  · decide
  · decide

theorem jsJoin6 (sep a b c d e f : String) :
    jsJoin sep [a, b, c, d, e, f]
      = a ++ sep ++ b ++ sep ++ c ++ sep ++ d ++ sep ++ e ++ sep ++ f := rfl

/-- C10: a non-error clear-sky result always carries a recommendation — the
insight line is the `Promising observing window` one, never the
`No promising window identified` branch — while an empty sky-cover series
produces the distinct `Sky cover data not available.` error. -/
theorem recommendation_C10 :
    (∀ args w, (handleClearSkyWindow args w).isError = false →
       ∃ t header highlight rowsText,
         handleClearSkyWindow args w = toTextResult t false ∧
         t = jsJoin "\n" [header, "", "Promising observing window: " ++ highlight, "",
           "Hourly breakdown:", rowsText]) ∧
    (∀ args w parsed points url grid,
       clearSkyArgumentParser args = Except.ok parsed → w.points = Except.ok points →
       points.properties.forecastGridData = some url → w.grid = Except.ok grid →
       (grid.properties.skyCover.map (·.values)).getD [] = [] →
       handleClearSkyWindow args w
         = toTextResult "Unable to analyze clear sky window. Sky cover data not available."
             true) := by
  constructor
  · intro args w hEr
    cases hcore : handleClearSkyWindowCore args w with
    | error m =>
      rw [handleClearSkyWindow, hcore] at hEr
      cases hEr
    | ok t =>
      have hres : handleClearSkyWindow args w = toTextResult t false := by
        rw [handleClearSkyWindow, hcore]
      refine ⟨t, ?_⟩
      cases hpa : parseArguments (clearSkyArgumentParser args) with
      | error e =>
        simp only [handleClearSkyWindowCore, hpa] at hcore
        exact Except.noConfusion hcore
      | ok parsed =>
        cases hw : w.points with
        | error e =>
          simp only [handleClearSkyWindowCore, hpa, hw] at hcore
          exact Except.noConfusion hcore
        | ok points =>
          cases hu : points.properties.forecastGridData with
          | none =>
            simp only [handleClearSkyWindowCore, hpa, hw, hu] at hcore
            exact Except.noConfusion hcore
          | some url =>
            cases hg : w.grid with
            | error e =>
              simp only [handleClearSkyWindowCore, hpa, hw, hu, hg] at hcore
              exact Except.noConfusion hcore
            | ok grid =>
              by_cases hlen :
                  ((grid.properties.skyCover.map (·.values)).getD []).length = 0
              · simp only [handleClearSkyWindowCore, hpa, hw, hu, hg, hlen, if_true] at hcore
                exact Except.noConfusion hcore
              · cases hrun : runClearSkyLoop
                    ((grid.properties.skyCover.map (·.values)).getD [])
                    ((grid.properties.probabilityOfPrecipitation.map (·.values)).getD [])
                    ((grid.properties.visibility.map (·.values)).getD [])
                    (grid.properties.visibility.bind (·.uom))
                    (jsLoopCount (min parsed.horizonHours
                      (((grid.properties.skyCover.map (·.values)).getD []).length : ℚ))) with
                | error e =>
                  simp only [handleClearSkyWindowCore, hpa, hw, hu, hg, hlen, if_false,
                    hrun] at hcore
                  exact Except.noConfusion hcore
                | ok p =>
                  obtain ⟨rows, best⟩ := p
                  have hq3 : 3 ≤ parsed.horizonHours :=
                    clearSkyParser_horizon_ge3 args parsed (parseArguments_ok_elim _ _ hpa)
                  have hcount : jsLoopCount (min parsed.horizonHours
                      (((grid.properties.skyCover.map (·.values)).getD []).length : ℚ))
                      ≠ 0 := by
                    have := jsLoopCount_pos parsed.horizonHours
                      ((grid.properties.skyCover.map (·.values)).getD []).length hq3 hlen
                    omega
                  obtain ⟨j, m, hjm⟩ := bestFold_isSome
                    (scoreAt ((grid.properties.skyCover.map (·.values)).getD [])
                      ((grid.properties.probabilityOfPrecipitation.map (·.values)).getD []))
                    _ hcount
                  have hbest := clearSkyLoopAux_ok_best _ _ _ _ _ _ _ _ _ hrun
                  rw [hjm] at hbest
                  subst hbest
                  simp only [handleClearSkyWindowCore, hpa, hw, hu, hg, hlen, if_false,
                    hrun] at hcore
                  injection hcore with ht
                  exact ⟨_, _, _, hres, ht.symm⟩
  · intro args w parsed points url grid hp hw hu hg hsky
    have hmsg : "Unable to analyze clear sky window. " ++ "Sky cover data not available."
        = "Unable to analyze clear sky window. Sky cover data not available." := by decide
    rw [handleClearSkyWindow]
    simp only [handleClearSkyWindowCore, hp, parseArguments, hw, hu, hg, hsky,
      List.length_nil, if_true]
    rw [hmsg]

/-- Witness for C10 at the end-to-end sample world and the empty-sky world. -/
theorem recommendation_C10_witness :
    (∃ t header highlight rowsText,
      handleClearSkyWindow goodArgs sampleWorld = toTextResult t false ∧
      t = jsJoin "\n" [header, "", "Promising observing window: " ++ highlight, "",
        "Hourly breakdown:", rowsText]) ∧
    handleClearSkyWindow goodArgs emptySkyWorld
      = toTextResult "Unable to analyze clear sky window. Sky cover data not available." true :=
  ⟨recommendation_C10.1 goodArgs sampleWorld (by decide),
   recommendation_C10.2 goodArgs emptySkyWorld ⟨40, -100, 12⟩ samplePoints
     "https://api.weather.gov/gridpoints/TOP/31,80" ⟨{}⟩ (by decide) rfl rfl rfl rfl⟩

theorem splitSlashAux_no_slash (a : List Char) :
    ∀ acc : List Char, '/' ∉ a → splitSlashAux a acc = [acc.reverse ++ a] := by
  induction a with
  | nil => intro acc _; simp [splitSlashAux]
  | cons c cs ih =>
    intro acc ha
    have hc : ¬ c = '/' := fun h => ha (h ▸ List.mem_cons_self c cs)
    rw [splitSlashAux, if_neg hc, ih (c :: acc) (fun h => ha (List.mem_cons_of_mem c h))]
    simp

theorem splitSlashAux_append (a b : List Char) :
    ∀ acc : List Char, '/' ∉ a →
    splitSlashAux (a ++ '/' :: b) acc = (acc.reverse ++ a) :: splitSlashAux b [] := by
  induction a with
  | nil => intro acc _; simp [splitSlashAux]
  | cons c cs ih =>
    intro acc ha
    have hc : ¬ c = '/' := fun h => ha (h ▸ List.mem_cons_self c cs)
    rw [List.cons_append, splitSlashAux, if_neg hc,
      ih (c :: acc) (fun h => ha (List.mem_cons_of_mem c h))]
    simp

theorem takeWhile_digits_append (ds rest : List Char)
    (hds : ∀ c ∈ ds, c.isDigit)
    (hrest : rest = [] ∨ ∃ r rs, rest = r :: rs ∧ r.isDigit = false) :
    (ds ++ rest).takeWhile (·.isDigit) = ds ∧ (ds ++ rest).dropWhile (·.isDigit) = rest := by
  induction ds with
  | nil =>
    simp only [List.nil_append]
    rcases hrest with rfl | ⟨r, rs, rfl, hr⟩
    · simp [List.takeWhile, List.dropWhile]
    · simp [List.takeWhile, List.dropWhile, hr]
  | cons d ds ih =>
    have hd : d.isDigit = true := hds d (List.mem_cons_self d ds)
    have ih2 := ih (fun c hc => hds c (List.mem_cons_of_mem d hc))
    simp only [List.cons_append, List.takeWhile, List.dropWhile, hd]
    simp [ih2.1, ih2.2]

theorem matchGroupNum_digits (marker : Char) (hm : marker.isDigit = false)
    (ds tail : List Char) (hne : ds ≠ []) (hds : ∀ c ∈ ds, c.isDigit) :
    matchGroupNum marker (ds ++ marker :: tail) = (some (digitsVal ds), tail) := by
  obtain ⟨tw, dw⟩ := takeWhile_digits_append ds (marker :: tail) hds
    (Or.inr ⟨marker, tail, rfl, hm⟩)
  rw [matchGroupNum]
  simp only [tw, dw]
  cases ds with
  | nil => exact absurd rfl hne
  | cons d ds2 => simp

theorem matchISODuration_days (ds : List Char) (hne : ds ≠ [])
    (hds : ∀ c ∈ ds, c.isDigit) :
    matchISODuration (String.mk ('P' :: (ds ++ ['D']))) = some (digitsVal ds, 0, 0, 0) := by
  have h1 : matchGroupNum 'D' (ds ++ ['D']) = (some (digitsVal ds), []) :=
    matchGroupNum_digits 'D' (by decide) ds [] hne hds
  rw [matchISODuration]
  simp only [h1]
  rfl

theorem parseISODurationToMs_days (ds : List Char) (hne : ds ≠ [])
    (hds : ∀ c ∈ ds, c.isDigit) :
    parseISODurationToMs (String.mk ('P' :: (ds ++ ['D']))) = digitsVal ds * 86400000 := by
  rw [parseISODurationToMs, matchISODuration_days ds hne hds]
  ring

/-- C9 (amended): for a representable start instant and a duration with only
a positive days component, the interval length is exactly
`days × 86,400,000` ms, by whole-millisecond integer arithmetic. -/
theorem duration_days_C9 (startIso : String) (t : Int) (ds : List Char)
    (hstart : parseJsDate startIso = some t)
    (hslash : '/' ∉ startIso.data)
    (hne : ds ≠ []) (hds : ∀ c ∈ ds, c.isDigit)
    (hpos : 1 ≤ digitsVal ds) :
    parseValidTime (startIso ++ "/P" ++ String.mk ds ++ "D")
      = (some t, some (t + (digitsVal ds : Int) * 86400000)) := by
  have hdataP : ("/P" : String).data = ['/', 'P'] := rfl
  have hdataD : ("D" : String).data = ['D'] := rfl
  have hdata : (startIso ++ "/P" ++ String.mk ds ++ "D").data
      = startIso.data ++ '/' :: ('P' :: (ds ++ ['D'])) := by
    rw [String.data_append, String.data_append, String.data_append, hdataP, hdataD]
    simp
  have hb : '/' ∉ ('P' :: (ds ++ ['D'])) := by
    intro hmem
    rcases List.mem_cons.mp hmem with h | h
    · exact absurd h (by decide)
    · rcases List.mem_append.mp h with h2 | h2
      · exact absurd (hds _ h2) (by decide)
      · rcases List.mem_singleton.mp h2 with h3
        exact absurd h3 (by decide)
  have hsplit : jsSplitSlash (startIso ++ "/P" ++ String.mk ds ++ "D")
      = [startIso, String.mk ('P' :: (ds ++ ['D']))] := by
    rw [jsSplitSlash, hdata, splitSlashAux_append startIso.data ('P' :: (ds ++ ['D'])) [] hslash,
      splitSlashAux_no_slash ('P' :: (ds ++ ['D'])) [] hb]
    simp
  have hnonempty : ¬ (String.mk ('P' :: (ds ++ ['D'])) = "") := by
    intro h
    have := congrArg String.data h
    simp at this
  have hdur : durationMsOf (startIso ++ "/P" ++ String.mk ds ++ "D")
      = digitsVal ds * 86400000 := by
    rw [durationMsOf, hsplit]
    simp only [List.getElem?_cons_succ, List.getElem?_cons_zero]
    rw [if_neg hnonempty, parseISODurationToMs_days ds hne hds]
  have hdurpos : 0 < digitsVal ds * 86400000 :=
    Nat.mul_pos hpos (by norm_num)
  rw [parseValidTime, hsplit, hdur]
  simp only [List.getElem?_cons_zero, Option.getD_some, hstart, if_pos hdurpos]
  rw [Prod.mk.injEq]
  constructor
  · rfl
  · rw [show Option.map (fun x => x + ((digitsVal ds * 86400000 : Nat) : Int)) (some t)
        = some (t + ((digitsVal ds * 86400000 : Nat) : Int)) from rfl]
    congr 1

/-- C9 counterexample: `P0D` (days = 0) decodes to the 1-hour fallback, so
the interval spans 3,600,000 ms rather than `0 × 86,400,000 = 0` ms. -/
theorem duration_days_C9_counterexample :
    parseValidTime "2024-01-01T00:00:00Z/P0D"
      = (some 1704067200000, some (1704067200000 + 3600000)) ∧
    (3600000 : Int) ≠ 0 * 86400000 := by
  constructor
  · decide
  · decide

/-- Witness for C9 at `P2D`. -/
theorem duration_days_C9_witness :
    parseValidTime ("2024-01-01T00:00:00Z" ++ "/P" ++ String.mk ['2'] ++ "D")
      = (some 1704067200000, some (1704067200000 + (digitsVal ['2'] : Int) * 86400000)) :=
  duration_days_C9 "2024-01-01T00:00:00Z" 1704067200000 ['2']
    (by decide) (by decide) (by decide) (by decide) (by decide)

end ClearNightSky
